import Mathlib

/-!
Verification of the todo-chatbot backend (`src/backend/src`), shallowly
embedded in Lean.

Conventions of the embedding:

* Python `uuid.UUID` values are represented by their 128-bit integer value,
  modelled as `Nat`; `pyUUID` below embeds the CPython `uuid.UUID(hex=...)`
  string parser.  `str(uuid)` is injective, so records carry the `Nat` value
  where the code carries the canonical string.
* `datetime` values are an abstract totally ordered time, modelled as `Nat`;
  `datetime.utcnow()` readings are passed in as explicit `now` arguments.
  `datetime.fromisoformat` is Python's standard library (not part of the
  repository), so it is taken as a parameter `pdate : String → Option Nat`
  and every theorem is quantified over it.
* The database session plus store is one value `DB`, holding the rows of the
  three tables in insertion (rowid) order.  Primary-key lookups
  (`scalar_one_or_none` on a `where id == x` select) become `List.find?`,
  which agrees with the code on stores whose ids are unique (primary keys).
  `ORDER BY created_at ASC` is modelled as a stable insertion sort of the
  insertion-ordered rows, matching the engine's rowid scan order within
  equal keys.
* Functions that raise `ValueError` return `Except String`, the payload being
  the exact exception message built by the code; `json.dumps`/`json.loads`
  round-trips are folded away, so a tool returns the record it serialises.
-/

namespace TodoChat

/-! ## Python string helpers -/

/-- Whitespace recognised by Python's `str.strip()` (ASCII fragment). -/
def isPySpace (c : Char) : Bool :=
  c = ' ' || c = '\t' || c = '\n' || c = '\r' || c = '\x0b' || c = '\x0c'

/-- Drop characters satisfying `bad` from both ends, as `str.strip(chars)`. -/
def stripSet (bad : Char → Bool) (l : List Char) : List Char :=
  ((l.dropWhile bad).reverse.dropWhile bad).reverse

/-- Python `s.strip()`. -/
def pyStrip (s : String) : String :=
  ⟨stripSet isPySpace s.data⟩

/-- Python `len(s)` (count of characters). -/
def pyLen (s : String) : Nat := s.data.length

/-- Remove every occurrence of `"urn:"`, scanning left to right without
overlap, as `s.replace("urn:", "")` does. -/
def removeUrn : List Char → List Char
  | 'u' :: 'r' :: 'n' :: ':' :: rest => removeUrn rest
  | c :: rest => c :: removeUrn rest
  | [] => []

/-- Remove every occurrence of `"uuid:"`, as `s.replace("uuid:", "")`. -/
def removeUuid : List Char → List Char
  | 'u' :: 'u' :: 'i' :: 'd' :: ':' :: rest => removeUuid rest
  | c :: rest => c :: removeUuid rest
  | [] => []

/-- Replace every `"Z"` by `"+00:00"`, as `s.replace('Z', '+00:00')`. -/
def replaceZ : List Char → List Char
  | 'Z' :: rest => '+' :: '0' :: '0' :: ':' :: '0' :: '0' :: replaceZ rest
  | c :: rest => c :: replaceZ rest
  | [] => []

/-- `due_date.replace('Z', '+00:00')` from the tools. -/
def pyReplaceZ (s : String) : String := ⟨replaceZ s.data⟩

def isHexChar (c : Char) : Bool :=
  ('0' ≤ c && c ≤ '9') || ('a' ≤ c && c ≤ 'f') || ('A' ≤ c && c ≤ 'F')

def hexCharVal (c : Char) : Nat :=
  if '0' ≤ c && c ≤ '9' then c.toNat - '0'.toNat
  else if 'a' ≤ c && c ≤ 'f' then c.toNat - 'a'.toNat + 10
  else c.toNat - 'A'.toNat + 10

/-- The CPython `uuid.UUID(hex=s)` constructor used by every tool's
`UUID(user_id)` / `UUID(task_id)` validation: drop `urn:` and `uuid:`
occurrences, strip surrounding braces, drop hyphens, then demand exactly 32
hexadecimal digits and read them as the 128-bit value.  (The exotic forms
`int(_, 16)` additionally accepts, such as a sign or `0x` inside a 32-column
field, are not modelled; no claim depends on them.) -/
def pyUUID (s : String) : Option Nat :=
  let l := removeUuid (removeUrn s.data)
  let l := stripSet (fun c => c = '{' || c = '}') l
  let l := l.filter (fun c => c ≠ '-')
  if l.length = 32 && l.all isHexChar then
    some (l.foldl (fun a c => a * 16 + hexCharVal c) 0)
  else none

/-! ## Data model (`src/models`) -/

/-- Row of `todo_tasks` (`src/models/task.py`). -/
structure Task where
  id : Nat
  user_id : Nat
  title : String
  completed : Bool
  priority : String
  due_date : Option Nat
  tags : Option String
  created_at : Nat
  updated_at : Nat
deriving DecidableEq

/-- Row of `todo_conversations` (`src/models/conversation.py`). -/
structure Conversation where
  id : Nat
  user_id : Nat
  created_at : Nat
deriving DecidableEq

/-- Row of `todo_messages` (`src/models/message.py`). -/
structure Message where
  id : Nat
  conversation_id : Nat
  role : String
  content : String
  created_at : Nat
deriving DecidableEq

/-- The persistent store: the three tables, rows in insertion order. -/
structure DB where
  tasks : List Task
  convs : List Conversation
  msgs : List Message
deriving DecidableEq

/-! ## MCP tool result records (the dicts each tool `json.dumps`) -/

/-- Dict returned by `add_task` (`src/mcp/tools/add_task.py`). -/
structure AddResult where
  task_id : Nat
  status : String
  title : String
  completed : Bool
  priority : String
  due_date : Option Nat
  tags : Option String
  created_at : Nat
deriving DecidableEq

/-- Entry of the `tasks` list returned by `list_tasks`. -/
structure TaskDict where
  task_id : Nat
  title : String
  completed : Bool
  priority : String
  due_date : Option Nat
  tags : Option String
  created_at : Nat
  updated_at : Nat
deriving DecidableEq

/-- Dict returned by `list_tasks` (`src/mcp/tools/list_tasks.py`). -/
structure ListResult where
  tasks : List TaskDict
  count : Nat
deriving DecidableEq

/-- Dict returned by `complete_task` (`src/mcp/tools/complete_task.py`). -/
structure CompleteResult where
  task_id : Nat
  status : String
  title : String
  completed : Bool
  updated_at : Nat
deriving DecidableEq

/-- Dict returned by `delete_task` (`src/mcp/tools/delete_task.py`). -/
structure DeleteResult where
  task_id : Nat
  status : String
  title : String
deriving DecidableEq

/-- Dict returned by `update_task` (`src/mcp/tools/update_task.py`). -/
structure UpdateResult where
  task_id : Nat
  status : String
  title : String
  completed : Bool
  priority : String
  due_date : Option Nat
  tags : Option String
  updated_at : Nat
deriving DecidableEq

def taskToDict (t : Task) : TaskDict :=
  { task_id := t.id, title := t.title, completed := t.completed
    priority := t.priority, due_date := t.due_date, tags := t.tags
    created_at := t.created_at, updated_at := t.updated_at }

/-! ## The five MCP tools (`src/mcp/tools`) -/

def msgInvalidUserId : String := "INVALID_USER_ID: user_id must be a valid UUID"
def msgInvalidTaskId : String := "INVALID_TASK_ID: task_id must be a valid UUID"
def msgTaskMissing : String := "TASK_NOT_FOUND: Task does not exist"
def msgTaskWrongUser : String := "TASK_NOT_FOUND: Task belongs to different user"
def msgTitleEmpty : String := "INVALID_TITLE: title cannot be empty"
def msgTitleLong : String := "INVALID_TITLE: title cannot exceed 500 characters"
def msgNewTitleEmpty : String := "INVALID_TITLE: new_title cannot be empty"
def msgNewTitleLong : String := "INVALID_TITLE: new_title cannot exceed 500 characters"
def msgBadPriority : String :=
  "INVALID_PRIORITY: priority must be one of [\x27low\x27, \x27medium\x27, \x27high\x27]"
def msgBadDueDateAdd : String :=
  "INVALID_DUE_DATE: due_date must be ISO format (e.g., 2025-01-25T10:30:00)"
def msgBadDueDateUpd : String :=
  "INVALID_DUE_DATE: due_date must be ISO format (e.g., 2025-01-25T10:30:00Z)"
def msgTagsLong : String := "INVALID_TAGS: tags cannot exceed 500 characters"

def validPriorities : List String := ["low", "medium", "high"]

/-- The due-date stage of `add_task` (`if due_date: parse ...`; an absent or
empty string is skipped by Python truthiness). -/
def parse_due_add (pdate : String → Option Nat) :
    Option String → Except String (Option Nat)
  | some d =>
    if d ≠ "" then
      match pdate (pyReplaceZ d) with
      | none => .error msgBadDueDateAdd
      | some v => .ok (some v)
    else .ok none
  | none => .ok none

/-- `add_task(user_id, title, priority="medium", due_date=None, tags=None)`.
`fresh` is the `uuid4()` drawn for the new row, `now` the `utcnow()` reading
used for both timestamps. -/
def add_task (pdate : String → Option Nat) (user_id title : String)
    (priority : String) (due_date : Option String) (tags : Option String)
    (fresh now : Nat) (db : DB) : Except String AddResult × DB :=
  match pyUUID user_id with
  | none => (.error msgInvalidUserId, db)
  | some u =>
    if pyStrip title = "" then (.error msgTitleEmpty, db)
    else if pyLen (pyStrip title) > 500 then (.error msgTitleLong, db)
    else if priority ≠ "" && !(validPriorities.contains priority) then
      (.error msgBadPriority, db)
    else
      match parse_due_add pdate due_date with
      | .error e => (.error e, db)
      | .ok parsed =>
        let task : Task :=
          { id := fresh, user_id := u, title := pyStrip title, completed := false
            priority := if priority = "" then "medium" else priority
            due_date := parsed, tags := tags
            created_at := now, updated_at := now }
        (.ok { task_id := task.id, status := "created", title := task.title
               completed := task.completed, priority := task.priority
               due_date := task.due_date, tags := task.tags
               created_at := task.created_at },
         { db with tasks := db.tasks ++ [task] })

/-- `list_tasks(user_id, filter_completed=None)`. -/
def list_tasks (user_id : String) (filter_completed : Option Bool)
    (db : DB) : Except String ListResult × DB :=
  match pyUUID user_id with
  | none => (.error msgInvalidUserId, db)
  | some u =>
    let ts := db.tasks.filter fun t =>
      t.user_id = u && match filter_completed with
                       | none => true
                       | some b => t.completed = b
    (.ok { tasks := ts.map taskToDict, count := ts.length }, db)

/-- `complete_task(user_id, task_id)`. -/
def complete_task (user_id task_id : String) (now : Nat) (db : DB) :
    Except String CompleteResult × DB :=
  match pyUUID user_id with
  | none => (.error msgInvalidUserId, db)
  | some u =>
  match pyUUID task_id with
  | none => (.error msgInvalidTaskId, db)
  | some t =>
  match db.tasks.find? (fun x => x.id == t) with
  | none => (.error msgTaskMissing, db)
  | some task =>
    if task.user_id ≠ u then (.error msgTaskWrongUser, db)
    else
      let task : Task := { task with completed := true, updated_at := now }
      (.ok { task_id := task.id, status := "completed", title := task.title
             completed := task.completed, updated_at := task.updated_at },
       { db with tasks := db.tasks.map fun x => if x.id == t then task else x })

/-- `delete_task(user_id, task_id)`. -/
def delete_task (user_id task_id : String) (db : DB) :
    Except String DeleteResult × DB :=
  match pyUUID user_id with
  | none => (.error msgInvalidUserId, db)
  | some u =>
  match pyUUID task_id with
  | none => (.error msgInvalidTaskId, db)
  | some t =>
  match db.tasks.find? (fun x => x.id == t) with
  | none => (.error msgTaskMissing, db)
  | some task =>
    if task.user_id ≠ u then (.error msgTaskWrongUser, db)
    else
      (.ok { task_id := t, status := "deleted", title := task.title },
       { db with tasks := db.tasks.filter fun x => x.id != t })

/-- The new-title validation stage of `update_task`. -/
def upd_title_step : Option String → Except String (Option String)
  | some s =>
    if pyStrip s = "" then .error msgNewTitleEmpty
    else if pyLen (pyStrip s) > 500 then .error msgNewTitleLong
    else .ok (some (pyStrip s))
  | none => .ok none

/-- The priority validation stage of `update_task`. -/
def upd_priority_step : Option String → Except String Unit
  | some p => if !(validPriorities.contains p) then .error msgBadPriority else .ok ()
  | none => .ok ()

/-- The due-date parsing stage of `update_task` (`if due_date is not None`). -/
def upd_due_step (pdate : String → Option Nat) :
    Option String → Except String (Option Nat)
  | some d =>
    match pdate (pyReplaceZ d) with
    | none => .error msgBadDueDateUpd
    | some v => .ok (some v)
  | none => .ok none

/-- The tags validation stage of `update_task` (strips, then length-checks). -/
def upd_tags_step : Option String → Except String (Option String)
  | some tg =>
    if pyLen (pyStrip tg) > 500 then .error msgTagsLong
    else .ok (some (pyStrip tg))
  | none => .ok none

/-- `update_task(user_id, task_id, new_title=None, completed=None,
priority=None, due_date=None, tags=None)`. -/
def update_task (pdate : String → Option Nat) (user_id task_id : String)
    (new_title : Option String) (completed : Option Bool)
    (priority : Option String) (due_date : Option String)
    (tags : Option String) (now : Nat) (db : DB) :
    Except String UpdateResult × DB :=
  match pyUUID user_id with
  | none => (.error msgInvalidUserId, db)
  | some u =>
  match pyUUID task_id with
  | none => (.error msgInvalidTaskId, db)
  | some t =>
  match upd_title_step new_title with
  | .error e => (.error e, db)
  | .ok newTitle =>
  match upd_priority_step priority with
  | .error e => (.error e, db)
  | .ok _ =>
  match upd_due_step pdate due_date with
  | .error e => (.error e, db)
  | .ok parsedDue =>
  match upd_tags_step tags with
  | .error e => (.error e, db)
  | .ok newTags =>
  match db.tasks.find? (fun x => x.id == t) with
  | none => (.error msgTaskMissing, db)
  | some task =>
    if task.user_id ≠ u then (.error msgTaskWrongUser, db)
    else
      let task2 : Task :=
        { task with
          title := newTitle.getD task.title
          completed := completed.getD task.completed
          priority := priority.getD task.priority
          due_date := match due_date with
                      | some _ => parsedDue
                      | none => task.due_date
          tags := match newTags with
                  | some tg => some tg
                  | none => task.tags
          updated_at := now }
      (.ok { task_id := task2.id, status := "updated", title := task2.title
             completed := task2.completed, priority := task2.priority
             due_date := task2.due_date, tags := task2.tags
             updated_at := task2.updated_at },
       { db with tasks := db.tasks.map fun x => if x.id == t then task2 else x })

/-! ## Chat service (`src/services/chat_service.py`) -/

/-- Message dict produced by `get_conversation_history`. -/
structure MsgDict where
  id : Nat
  role : String
  content : String
  created_at : Nat
deriving DecidableEq

def msgToDict (m : Message) : MsgDict :=
  { id := m.id, role := m.role, content := m.content, created_at := m.created_at }

/-- The `ORDER BY created_at ASC` key. -/
def byCreatedAt (a b : Message) : Prop := a.created_at ≤ b.created_at

instance : DecidableRel byCreatedAt := fun a b => Nat.decLe a.created_at b.created_at

instance : IsTotal Message byCreatedAt :=
  ⟨fun a b => Nat.le_total a.created_at b.created_at⟩

instance : IsTrans Message byCreatedAt :=
  ⟨fun _ _ _ h h2 => Nat.le_trans h h2⟩

/-- `ChatService.create_conversation`. -/
def create_conversation (user_id fresh now : Nat) (db : DB) : Conversation × DB :=
  let conv : Conversation := { id := fresh, user_id := user_id, created_at := now }
  (conv, { db with convs := db.convs ++ [conv] })

/-- `ChatService.get_conversation_history`: `None` when the conversation is
absent or owned by someone else; otherwise the conversation's messages
ordered by `created_at` ascending (ties in rowid = insertion order). -/
def get_conversation_history (conversation_id user_id : Nat) (db : DB) :
    Option (List MsgDict) :=
  match db.convs.find? (fun c => c.id == conversation_id && c.user_id == user_id) with
  | none => none
  | some _ =>
    some ((List.insertionSort byCreatedAt
      (db.msgs.filter (fun m => m.conversation_id == conversation_id))).map msgToDict)

def msgInvalidRole (role : String) : String :=
  "Invalid role: " ++ role ++ ". Must be \x27user\x27 or \x27assistant\x27"

def msgEmptyContent : String := "Message content cannot be empty"

/-- `ChatService.save_message`: validates the role and (trimmed) content,
then appends the message with the stripped content. -/
def save_message (conversation_id : Nat) (role content : String)
    (fresh now : Nat) (db : DB) : Except String Message × DB :=
  if role ≠ "user" ∧ role ≠ "assistant" then (.error (msgInvalidRole role), db)
  else if pyStrip content = "" then (.error msgEmptyContent, db)
  else
    let m : Message :=
      { id := fresh, conversation_id := conversation_id, role := role
        content := pyStrip content, created_at := now }
    (.ok m, { db with msgs := db.msgs ++ [m] })

/-! ## Agent orchestrator (`src/agent/agent.py`) -/

/-- The JSON argument object the reasoning model produces for a tool call
(`json.loads(tool_call.function.arguments)`), restricted to the keys of the
five tool schemas.  A missing key and an explicit JSON `null` are both
`none`. -/
structure GenArgs where
  user_id : Option String := none
  title : Option String := none
  task_id : Option String := none
  new_title : Option String := none
  completed : Option Bool := none
  priority : Option String := none
  due_date : Option String := none
  tags : Option String := none
  filter_completed : Option Bool := none
deriving DecidableEq

/-- One entry of `message.tool_calls`. -/
structure ToolCallMsg where
  name : String
  args : GenArgs
deriving DecidableEq

/-- `response.choices[0].message` of the reasoning service. -/
structure ModelMsg where
  content : Option String
  tool_calls : List ToolCallMsg
deriving DecidableEq

/-- Sum of the five tools' result records. -/
inductive ToolOutput where
  | created (r : AddResult)
  | listed (r : ListResult)
  | completedOut (r : CompleteResult)
  | deleted (r : DeleteResult)
  | updated (r : UpdateResult)
deriving DecidableEq

/-- Observable steps of one turn, in execution order. -/
inductive Ev where
  | loadHistory
  | reasoning
  | toolCall (name : String)
  | append (role : String) (content : String)
deriving DecidableEq

/-- `function_args['user_id'] = str(user_id)`: the orchestrator forcibly
overwrites (or inserts) the owner argument with the authenticated caller's
id before executing any tool (agent.py line 342). -/
def inject_owner (auth : String) (a : GenArgs) : GenArgs :=
  { a with user_id := some auth }

def toolNames : List String :=
  ["add_task", "list_tasks", "complete_task", "delete_task", "update_task"]

def requiredParams (name : String) : List String :=
  if name = "add_task" then ["user_id", "title"]
  else if name = "list_tasks" then ["user_id"]
  else ["user_id", "task_id"]

/-- `[p for p in required_params[name] if p not in function_args]`. -/
def missingParams (name : String) (a : GenArgs) : List String :=
  (requiredParams name).filter fun p =>
    (p == "user_id" && a.user_id.isNone)
    || (p == "title" && a.title.isNone)
    || (p == "task_id" && a.task_id.isNone)

/-- Python `repr` of a list of strings, as interpolated into the
missing-parameters exception message. -/
def pyListRepr (l : List String) : String :=
  "[" ++ String.intercalate ", " (l.map fun p => "\x27" ++ p ++ "\x27") ++ "]"

/-- `AgentService._execute_tool`: unknown-name check, required-parameter
check, then dispatch to the tool with the generated arguments. -/
def execute_tool (pdate : String → Option Nat) (name : String) (a : GenArgs)
    (fresh now : Nat) (db : DB) : Except String ToolOutput × DB :=
  if name ∉ toolNames then (.error ("Unknown tool: " ++ name), db)
  else if missingParams name a ≠ [] then
    (.error ("Missing required parameters: " ++ pyListRepr (missingParams name a)), db)
  else if name = "add_task" then
    let (r, db') := add_task pdate (a.user_id.getD "") (a.title.getD "")
      (a.priority.getD "medium") a.due_date a.tags fresh now db
    (r.map .created, db')
  else if name = "list_tasks" then
    let (r, db') := list_tasks (a.user_id.getD "") a.filter_completed db
    (r.map .listed, db')
  else if name = "complete_task" then
    let (r, db') := complete_task (a.user_id.getD "") (a.task_id.getD "") now db
    (r.map .completedOut, db')
  else if name = "delete_task" then
    let (r, db') := delete_task (a.user_id.getD "") (a.task_id.getD "") db
    (r.map .deleted, db')
  else
    let (r, db') := update_task pdate (a.user_id.getD "") (a.task_id.getD "")
      a.new_title a.completed a.priority a.due_date a.tags now db
    (r.map .updated, db')

/-- `AgentService._format_task_for_display`. -/
def format_task_for_display (index : Nat) (task : TaskDict) : String :=
  let status := if task.completed then "✓" else "○"
  let tid := toString task.task_id
  let details : List String :=
    (if task.priority ≠ "" ∧ task.priority ≠ "medium"
     then ["Priority: " ++ task.priority] else [])
    ++ (match task.due_date with
        | some d => ["Due: " ++ toString d]
        | none => [])
    ++ (match task.tags with
        | some tg => if tg ≠ "" then ["Tags: " ++ tg] else []
        | none => [])
  if details ≠ [] then
    toString (index + 1) ++ ". " ++ status ++ " " ++ task.title
      ++ "\n   (ID: " ++ tid ++ ")\n   [" ++ String.intercalate " | " details ++ "]"
  else
    toString (index + 1) ++ ". " ++ status ++ " " ++ task.title
      ++ "\n   (ID: " ++ tid ++ ")"

/-- `AgentService._generate_response_from_result`: the deterministic per-tool
reply templates. -/
def generate_response_from_result : ToolOutput → String
  | .created r =>
    if r.status = "created" then
      "I\x27ve added the task \x27" ++ r.title ++ "\x27 to your todo list."
    else "I tried to add the task but encountered an issue."
  | .listed r =>
    if r.count = 0 then
      "You don\x27t have any tasks yet. You can ask me to add one!"
    else
      "Here are your " ++ toString r.count ++ " task(s):\n"
        ++ String.intercalate "\n"
            (r.tasks.enum.map fun p => format_task_for_display p.1 p.2)
        ++ "\n\nTip: Refer to tasks by number or use the full ID."
  | .completedOut r =>
    if r.status = "completed" then
      "I\x27ve marked the task \x27" ++ r.title ++ "\x27 as completed."
    else "I tried to complete the task but encountered an issue."
  | .deleted r =>
    if r.status = "deleted" then
      "I\x27ve deleted the task \x27" ++ r.title ++ "\x27."
    else "I tried to delete the task but encountered an issue."
  | .updated r =>
    if r.status = "updated" then
      "I\x27ve updated the task to: \x27" ++ r.title ++ "\x27."
    else "I tried to update the task but encountered an issue."

def fallbackReply : String := "I understand. How can I help you with your tasks?"

/-- `AgentService._process_openai_response`: honor only the first tool call;
inject the authenticated owner; convert a tool failure into an apologetic
sentence; relay plain text verbatim (generic acknowledgement if empty). -/
def process_openai_response (pdate : String → Option Nat) (msg : ModelMsg)
    (auth : String) (fresh now : Nat) (db : DB) : String × DB × List Ev :=
  match msg.tool_calls with
  | [] =>
    (match msg.content with
     | some c => if c = "" then fallbackReply else c
     | none => fallbackReply, db, [])
  | tc :: _ =>
    match execute_tool pdate tc.name (inject_owner auth tc.args) fresh now db with
    | (.ok out, db') => (generate_response_from_result out, db', [.toolCall tc.name])
    | (.error e, db') => ("Sorry, I encountered an error: " ++ e, db', [.toolCall tc.name])

/-- The reasoning round-trip plus response processing of
`AgentService.process_message`: a `ReasoningServiceError` (the `except`
around `chat.completions.create`) degrades to an apologetic sentence,
otherwise the response is processed. -/
def agent_reply (pdate : String → Option Nat) (apiResult : Except String ModelMsg)
    (auth : String) (freshT nowT : Nat) (db : DB) : String × DB × List Ev :=
  match apiResult with
  | .error e => ("I encountered an error processing your request: " ++ e, db, [.reasoning])
  | .ok m =>
    match process_openai_response pdate m auth freshT nowT db with
    | (a, db1, evs) => (a, db1, .reasoning :: evs)

/-- `AgentService.process_message`.  `apiResult` is the outcome of the
external reasoning call; `freshT` the `uuid4()` a tool may draw; `fm1`,
`fm2` the ids of the two saved messages; `nowT`, `now1`, `now2` the
`utcnow()` readings.  Returns the assistant reply (or the propagated
exception), the final store, and the event trace. -/
def process_message (pdate : String → Option Nat)
    (apiResult : Except String ModelMsg) (user_message auth : String)
    (authU : Nat) (conversation_id : Option Nat)
    (freshT fm1 fm2 nowT now1 now2 : Nat) (db : DB) :
    Except String String × DB × List Ev :=
  match conversation_id with
  | some cid =>
    match get_conversation_history cid authU db with
    | none =>
      -- history is None: iterating it in _format_messages_for_openai raises,
      -- aborting the turn with nothing persisted (unreachable through the
      -- chat endpoint, which has already checked ownership)
      (.error "TypeError: \x27NoneType\x27 object is not iterable", db, [.loadHistory])
    | some _ =>
      match agent_reply pdate apiResult auth freshT nowT db with
      | (assistant, db1, evs) =>
        match save_message cid "user" user_message fm1 now1 db1 with
        | (.error e, db2) => (.error e, db2, .loadHistory :: evs)
        | (.ok _, db2) =>
          match save_message cid "assistant" assistant fm2 now2 db2 with
          | (.error e, db3) =>
            (.error e, db3, .loadHistory :: evs ++ [.append "user" user_message])
          | (.ok _, db3) =>
            (.ok assistant, db3,
             .loadHistory :: evs
               ++ [.append "user" user_message, .append "assistant" assistant])
  | none =>
    match agent_reply pdate apiResult auth freshT nowT db with
    | (a, db1, evs) => (.ok a, db1, evs)

/-! ## REST task endpoints (`src/api/tasks.py`) -/

/-- `TaskUpdate` pydantic schema (due_date already parsed by pydantic). -/
structure TaskUpdatePatch where
  title : Option String := none
  completed : Option Bool := none
  priority : Option String := none
  due_date : Option Nat := none
  tags : Option String := none
deriving DecidableEq

structure TaskPublic where
  id : Nat
  title : String
  completed : Bool
  priority : String
  due_date : Option Nat
  tags : Option String
  created_at : Nat
  updated_at : Nat
deriving DecidableEq

def taskToPublic (t : Task) : TaskPublic :=
  { id := t.id, title := t.title, completed := t.completed
    priority := t.priority, due_date := t.due_date, tags := t.tags
    created_at := t.created_at, updated_at := t.updated_at }

/-- `PUT /api/v1/tasks/{task_id}`: 404 when absent, 403 when owned by a
different user, else apply the present patch fields and bump updated_at. -/
def api_update_task (task_id : Nat) (patch : TaskUpdatePatch)
    (current_user now : Nat) (db : DB) : Except (Nat × String) TaskPublic × DB :=
  match db.tasks.find? (fun x => x.id == task_id) with
  | none => (.error (404, "Task not found"), db)
  | some task =>
    if task.user_id ≠ current_user then
      (.error (403, "Not authorized to update this task"), db)
    else
      let task : Task :=
        { task with
          title := patch.title.getD task.title
          completed := patch.completed.getD task.completed
          priority := patch.priority.getD task.priority
          due_date := match patch.due_date with
                      | some d => some d
                      | none => task.due_date
          tags := match patch.tags with
                  | some tg => some tg
                  | none => task.tags
          updated_at := now }
      (.ok (taskToPublic task),
       { db with tasks := db.tasks.map fun x => if x.id == task_id then task else x })

/-- `DELETE /api/v1/tasks/{task_id}`: 404 when absent, 403 when owned by a
different user. -/
def api_delete_task (task_id : Nat) (current_user : Nat) (db : DB) :
    Except (Nat × String) Unit × DB :=
  match db.tasks.find? (fun x => x.id == task_id) with
  | none => (.error (404, "Task not found"), db)
  | some task =>
    if task.user_id ≠ current_user then
      (.error (403, "Not authorized to delete this task"), db)
    else
      (.ok (), { db with tasks := db.tasks.filter fun x => x.id != task_id })

/-! ## Chat endpoint (`src/api/chat.py`) -/

structure ChatResponse where
  conversation_id : Nat
  user_message : String
  assistant_message : String
  history : List MsgDict
deriving DecidableEq

/-- The turn body shared by both branches of the endpoint: run the agent,
then re-read the full history for the response. -/
def chat_run_turn (pdate : String → Option Nat)
    (apiResult : Except String ModelMsg) (message auth : String)
    (authU cid freshT fm1 fm2 nowT now1 now2 : Nat) (db : DB) :
    Except (Nat × String) ChatResponse × DB :=
  match process_message pdate apiResult message auth authU (some cid)
      freshT fm1 fm2 nowT now1 now2 db with
  | (.error e, db', _) => (.error (500, e), db')
  | (.ok assistant, db', _) =>
    match get_conversation_history cid authU db' with
    | none => (.error (500, "Internal Server Error"), db')
    | some h =>
      (.ok { conversation_id := cid, user_message := message
             assistant_message := assistant, history := h }, db')

/-- `POST /api/v1/chat`: pydantic message-length validation, then load (and
ownership-check) or create the conversation, then run the turn. -/
def chat_endpoint (pdate : String → Option Nat)
    (apiResult : Except String ModelMsg) (message : String)
    (reqCid : Option Nat) (auth : String)
    (authU freshConv freshT fm1 fm2 nowC nowT now1 now2 : Nat) (db : DB) :
    Except (Nat × String) ChatResponse × DB :=
  if pyLen message < 1 ∨ pyLen message > 10000 then
    (.error (422, "Unprocessable Entity"), db)
  else
    match reqCid with
    | some cid =>
      match get_conversation_history cid authU db with
      | none => (.error (404, "Conversation not found or access denied"), db)
      | some _ =>
        chat_run_turn pdate apiResult message auth authU cid
          freshT fm1 fm2 nowT now1 now2 db
    | none =>
      let (conv, db1) := create_conversation authU freshConv nowC db
      chat_run_turn pdate apiResult message auth authU conv.id
        freshT fm1 fm2 nowT now1 now2 db1

/-! ## Helper instances and lemmas -/

instance {ε α : Type} [DecidableEq ε] [DecidableEq α] : DecidableEq (Except ε α) :=
  fun a b =>
    match a, b with
    | .error e, .error f =>
      if h : e = f then .isTrue (by rw [h]) else .isFalse (by simp [h])
    | .ok x, .ok y =>
      if h : x = y then .isTrue (by rw [h]) else .isFalse (by simp [h])
    | .error _, .ok _ => .isFalse (by simp)
    | .ok _, .error _ => .isFalse (by simp)

/-- Concrete fixtures used by counterexamples and witnesses. -/
def cexUserA : String := "00000000-0000-0000-0000-00000000000a"

def cexUserB : String := "00000000-0000-0000-0000-00000000000b"

def cexTask1 : String := "00000000-0000-0000-0000-000000000001"

def cexTask2 : String := "00000000-0000-0000-0000-000000000002"

/-- A store holding one task of user `10` (the parse of `cexUserA`). -/
def cexDB : DB :=
  { tasks := [⟨1, 10, "User 1 task", false, "medium", none, none, 0, 0⟩]
    convs := [⟨1, 10, 0⟩], msgs := [] }

/-- A 501-character title, over the 500-character limit. -/
def cexLongTitle : String := ⟨List.replicate 501 'a'⟩

/-- A store whose conversation `1` already holds two messages. -/
def cexDBmsgs : DB :=
  { tasks := [], convs := [⟨1, 10, 0⟩]
    msgs := [⟨5, 1, "user", "a", 2⟩, ⟨6, 1, "assistant", "b", 3⟩] }

/-- Replacing the found task by a record with the same id is found again. -/
theorem find?_map_replace {l : List Task} {t : Nat} {task task2 : Task}
    (h : l.find? (fun x => x.id == t) = some task) (h2 : task2.id = t) :
    (l.map fun x => if x.id == t then task2 else x).find? (fun x => x.id == t)
      = some task2 := by
  induction l with
  | nil => simp at h
  | cons a l ih =>
    by_cases ha : (a.id == t) = true
    · have hb : (task2.id == t) = true := by simp [h2]
      simp only [List.map_cons, if_pos ha, List.find?, hb]
    · have hb : (a.id == t) = false := by simpa using ha
      simp only [List.find?, hb] at h
      simpa [List.map_cons, if_neg ha, List.find?, hb] using ih h

/-- Every tool only rewrites the task table. -/
theorem add_task_store (pdate : String → Option Nat) (su ti pr : String)
    (dd tg : Option String) (fresh now : Nat) (db : DB) :
    (add_task pdate su ti pr dd tg fresh now db).2.msgs = db.msgs
    ∧ (add_task pdate su ti pr dd tg fresh now db).2.convs = db.convs := by
  unfold add_task
  constructor <;> (repeat' split) <;> rfl

theorem list_tasks_store (su : String) (fc : Option Bool) (db : DB) :
    (list_tasks su fc db).2.msgs = db.msgs
    ∧ (list_tasks su fc db).2.convs = db.convs := by
  unfold list_tasks
  constructor <;> (repeat' split) <;> rfl

theorem complete_task_store (su st : String) (now : Nat) (db : DB) :
    (complete_task su st now db).2.msgs = db.msgs
    ∧ (complete_task su st now db).2.convs = db.convs := by
  unfold complete_task
  constructor <;> (repeat' split) <;> rfl

theorem delete_task_store (su st : String) (db : DB) :
    (delete_task su st db).2.msgs = db.msgs
    ∧ (delete_task su st db).2.convs = db.convs := by
  unfold delete_task
  constructor <;> (repeat' split) <;> rfl

theorem update_task_store (pdate : String → Option Nat) (su st : String)
    (nt : Option String) (co : Option Bool) (pr : Option String)
    (dd tg : Option String) (now : Nat) (db : DB) :
    (update_task pdate su st nt co pr dd tg now db).2.msgs = db.msgs
    ∧ (update_task pdate su st nt co pr dd tg now db).2.convs = db.convs := by
  unfold update_task
  constructor <;> (repeat' split) <;> rfl

/-- None of the five tools touches the message or conversation tables. -/
theorem execute_tool_store (pdate : String → Option Nat) (name : String)
    (a : GenArgs) (fresh now : Nat) (db : DB) :
    (execute_tool pdate name a fresh now db).2.msgs = db.msgs
    ∧ (execute_tool pdate name a fresh now db).2.convs = db.convs := by
  unfold execute_tool
  by_cases h1 : name ∉ toolNames
  · simp [h1]
  · simp only [h1, if_false]
    by_cases h2 : missingParams name a ≠ []
    · simp [h2]
    · simp only [h2, if_false]
      by_cases h3 : name = "add_task"
      · simpa [h3] using add_task_store pdate (a.user_id.getD "") (a.title.getD "")
          (a.priority.getD "medium") a.due_date a.tags fresh now db
      · simp only [h3, if_false]
        by_cases h4 : name = "list_tasks"
        · simpa [h4] using list_tasks_store (a.user_id.getD "") a.filter_completed db
        · simp only [h4, if_false]
          by_cases h5 : name = "complete_task"
          · simpa [h5] using complete_task_store (a.user_id.getD "")
              (a.task_id.getD "") now db
          · simp only [h5, if_false]
            by_cases h6 : name = "delete_task"
            · simpa [h6] using delete_task_store (a.user_id.getD "")
                (a.task_id.getD "") db
            · simpa [h6] using update_task_store pdate (a.user_id.getD "")
                (a.task_id.getD "") a.new_title a.completed a.priority
                a.due_date a.tags now db

/-- The model-response processing step touches neither messages nor
conversations. -/
theorem process_openai_response_store (pdate : String → Option Nat)
    (m : ModelMsg) (auth : String) (fresh now : Nat) (db : DB) :
    (process_openai_response pdate m auth fresh now db).2.1.msgs = db.msgs
    ∧ (process_openai_response pdate m auth fresh now db).2.1.convs = db.convs := by
  rcases m with ⟨c, tcs⟩
  cases tcs with
  | nil => exact ⟨rfl, rfl⟩
  | cons tc rest =>
    have h := execute_tool_store pdate tc.name (inject_owner auth tc.args)
      fresh now db
    rcases hx : execute_tool pdate tc.name (inject_owner auth tc.args)
      fresh now db with ⟨r, db1⟩
    rw [hx] at h
    cases r <;> constructor <;> simp only [process_openai_response, hx] <;>
      first
      | exact h.1
      | exact h.2

/-- The reasoning step plus response processing touches neither messages nor
conversations. -/
theorem agent_reply_store (pdate : String → Option Nat)
    (apiResult : Except String ModelMsg) (auth : String) (freshT nowT : Nat)
    (db : DB) :
    (agent_reply pdate apiResult auth freshT nowT db).2.1.msgs = db.msgs
    ∧ (agent_reply pdate apiResult auth freshT nowT db).2.1.convs = db.convs := by
  cases apiResult with
  | error e => exact ⟨rfl, rfl⟩
  | ok m =>
    have h := process_openai_response_store pdate m auth freshT nowT db
    rcases hp : process_openai_response pdate m auth freshT nowT db with ⟨a, db1, evs⟩
    rw [hp] at h
    constructor <;> simp only [agent_reply, hp] <;>
      first
      | exact h.1
      | exact h.2

/-! ## Claims -/

/-- C1: for every tool invocation selected by the model in a chat turn, and
for every owner (`user_id`) value the model placed in the generated argument
object, the orchestrator overwrites/inserts that argument with the
authenticated caller's id before executing the tool; the executed tool's
result and effects (reply, store, trace) are therefore independent of the
model-supplied owner value, and the executed call carries exactly the
authenticated caller's id. -/
theorem owner_injection_independence (pdate : String → Option Nat)
    (c : Option String) (name : String) (a : GenArgs) (v : Option String)
    (rest : List ToolCallMsg) (auth : String) (fresh now : Nat) (db : DB) :
    process_openai_response pdate ⟨c, ⟨name, { a with user_id := v }⟩ :: rest⟩
        auth fresh now db
      = process_openai_response pdate ⟨c, ⟨name, a⟩ :: rest⟩ auth fresh now db
    ∧ (inject_owner auth { a with user_id := v }).user_id = some auth := by
  refine ⟨?_, rfl⟩
  have h : inject_owner auth { a with user_id := v } = inject_owner auth a := rfl
  simp only [process_openai_response, h]

/-- C2 counterexample: the claim "every Task Store operation invoked with
owner=B on A's task returns NotFound ... never distinguishable from the
failure produced when no task with that id exists" is false on the code.
The REST `update_task` cited by the claim returns a 403 for the wrong-owner
case and a 404 for the absent case, and even the MCP tool raises an
exception whose message text differs between the two cases. -/
theorem crossuser_distinguishable_cex :
    (api_update_task 1 {} 11 5 cexDB).1
        = .error (403, "Not authorized to update this task")
    ∧ (api_update_task 2 {} 11 5 cexDB).1 = .error (404, "Task not found")
    ∧ (403, "Not authorized to update this task")
        ≠ ((404 : Nat), "Task not found")
    ∧ (complete_task cexUserB cexTask1 5 cexDB).1 = .error msgTaskWrongUser
    ∧ (complete_task cexUserB cexTask2 5 cexDB).1 = .error msgTaskMissing
    ∧ msgTaskWrongUser ≠ msgTaskMissing := by decide

/-- C2 amended: for all owners A≠B and any task created by A, the MCP tool
operations (`complete_task`, `delete_task`, `update_task`) invoked with
owner=B on that task id fail with a `TASK_NOT_FOUND`-coded error and no
state change — never a partial success — and likewise when no task with
that id exists; but the two failures are distinguishable: the tool
exception messages differ ("belongs to different user" vs "does not
exist"), and the REST update/delete endpoints return 403 for the
wrong-owner case vs 404 for the absent case. -/
theorem crossuser_notfound_amended :
    (∀ (pdate : String → Option Nat) (su st : String) (u t now : Nat)
       (db : DB) (task : Task),
       pyUUID su = some u → pyUUID st = some t →
       db.tasks.find? (fun x => x.id == t) = some task → task.user_id ≠ u →
         complete_task su st now db = (.error msgTaskWrongUser, db)
         ∧ delete_task su st db = (.error msgTaskWrongUser, db)
         ∧ update_task pdate su st none none none none none now db
             = (.error msgTaskWrongUser, db))
  ∧ (∀ (pdate : String → Option Nat) (su st : String) (u t now : Nat) (db : DB),
       pyUUID su = some u → pyUUID st = some t →
       db.tasks.find? (fun x => x.id == t) = none →
         complete_task su st now db = (.error msgTaskMissing, db)
         ∧ delete_task su st db = (.error msgTaskMissing, db)
         ∧ update_task pdate su st none none none none none now db
             = (.error msgTaskMissing, db))
  ∧ (∀ (t u now : Nat) (db : DB) (task : Task),
       db.tasks.find? (fun x => x.id == t) = some task → task.user_id ≠ u →
         api_update_task t {} u now db
             = (.error (403, "Not authorized to update this task"), db)
         ∧ api_delete_task t u db
             = (.error (403, "Not authorized to delete this task"), db))
  ∧ (∀ (t u now : Nat) (db : DB),
       db.tasks.find? (fun x => x.id == t) = none →
         api_update_task t {} u now db = (.error (404, "Task not found"), db)
         ∧ api_delete_task t u db = (.error (404, "Task not found"), db))
  ∧ msgTaskWrongUser ≠ msgTaskMissing ∧ (403 : Nat) ≠ 404 := by
  refine ⟨?_, ?_, ?_, ?_, by decide, by decide⟩
  · intro pdate su st u t now db task h1 h2 h3 h4
    refine ⟨?_, ?_, ?_⟩ <;>
      simp [complete_task, delete_task, update_task, upd_title_step,
        upd_priority_step, upd_due_step, upd_tags_step, h1, h2, h3, h4]
  · intro pdate su st u t now db h1 h2 h3
    refine ⟨?_, ?_, ?_⟩ <;>
      simp [complete_task, delete_task, update_task, upd_title_step,
        upd_priority_step, upd_due_step, upd_tags_step, h1, h2, h3]
  · intro t u now db task h1 h2
    exact ⟨by simp [api_update_task, h1, h2], by simp [api_delete_task, h1, h2]⟩
  · intro t u now db h1
    exact ⟨by simp [api_update_task, h1], by simp [api_delete_task, h1]⟩

/-- C2 amended witness: the amended theorem applied at a concrete store. -/
theorem crossuser_notfound_amended_witness :
    complete_task cexUserB cexTask1 5 cexDB = (.error msgTaskWrongUser, cexDB)
    ∧ delete_task cexUserB cexTask1 cexDB = (.error msgTaskWrongUser, cexDB)
    ∧ update_task (fun _ => none) cexUserB cexTask1 none none none none none 5 cexDB
        = (.error msgTaskWrongUser, cexDB) :=
  crossuser_notfound_amended.1 (fun _ => none) cexUserB cexTask1 11 1 5 cexDB
    ⟨1, 10, "User 1 task", false, "medium", none, none, 0, 0⟩
    (by decide) (by decide) (by decide) (by decide)

/-- C4 counterexample: the claim that the orchestrator's apologetic
sentence never exposes a raw error code is false: the sentence embeds
`str(e)`, whose text begins with the tool's error-code token (here
`INVALID_TITLE`, produced by `add_task` on an empty title). -/
theorem apology_raw_code_cex :
    (process_openai_response (fun _ => none)
        ⟨none, [⟨"add_task", { title := some "" }⟩]⟩ cexUserA 100 5 cexDB).1
      = "Sorry, I encountered an error: " ++ "INVALID_TITLE"
          ++ ": title cannot be empty" := by decide

/-- C4 amended: every Tool Layer failure is converted into the single
apologetic sentence `Sorry, I encountered an error: <message>` returned as
the assistant reply (never a protocol-level error for this step), and every
failure of the external reasoning call into `I encountered an error
processing your request: <message>` — but the sentence embeds the failure's
raw message text, error code included. -/
theorem apology_sentence_amended :
    (∀ (pdate : String → Option Nat) (c : Option String) (name : String)
       (a : GenArgs) (rest : List ToolCallMsg) (auth : String)
       (fresh now : Nat) (db db2 : DB) (e : String),
       execute_tool pdate name (inject_owner auth a) fresh now db = (.error e, db2) →
         process_openai_response pdate ⟨c, ⟨name, a⟩ :: rest⟩ auth fresh now db
           = ("Sorry, I encountered an error: " ++ e, db2, [.toolCall name]))
  ∧ (∀ (pdate : String → Option Nat) (e auth : String) (freshT nowT : Nat) (db : DB),
       agent_reply pdate (.error e) auth freshT nowT db
         = ("I encountered an error processing your request: " ++ e, db,
            [.reasoning])) := by
  constructor
  · intro pdate c name a rest auth fresh now db db2 e h
    simp [process_openai_response, h]
  · intro pdate e auth freshT nowT db
    rfl

/-- C4 amended witness: a concrete tool failure (unknown tool name) and a
concrete reasoning failure, run through the amended theorem. -/
theorem apology_sentence_amended_witness :
    process_openai_response (fun _ => none) ⟨none, [⟨"foo_tool", {}⟩]⟩
        cexUserA 100 5 cexDB
      = ("Sorry, I encountered an error: " ++ "Unknown tool: foo_tool", cexDB,
         [.toolCall "foo_tool"])
    ∧ agent_reply (fun _ => none) (.error "boom") cexUserA 100 5 cexDB
      = ("I encountered an error processing your request: " ++ "boom", cexDB,
         [.reasoning]) :=
  ⟨apology_sentence_amended.1 (fun _ => none) none "foo_tool" {} [] cexUserA
      100 5 cexDB cexDB "Unknown tool: foo_tool" (by decide),
   apology_sentence_amended.2 (fun _ => none) "boom" cexUserA 100 5 cexDB⟩

/-- C5: every tool validates in the fixed short-circuit order — owner id
format, then task id format (where applicable), then field-level
constraints (title, priority, due date, tags), then existence/ownership
lookup, then persistence.  An input failing an earlier stage yields that
stage's error for every store, with the store returned unchanged — no
later stage runs and no store access occurs (the result does not depend on
the store). -/
theorem tool_validation_order :
    -- stage 1: owner id format, for each of the five tools
    (∀ pdate su ti pr dd tg fresh now db, pyUUID su = none →
       add_task pdate su ti pr dd tg fresh now db = (.error msgInvalidUserId, db))
  ∧ (∀ su fc db, pyUUID su = none →
       list_tasks su fc db = (.error msgInvalidUserId, db))
  ∧ (∀ su st now db, pyUUID su = none →
       complete_task su st now db = (.error msgInvalidUserId, db))
  ∧ (∀ su st db, pyUUID su = none →
       delete_task su st db = (.error msgInvalidUserId, db))
  ∧ (∀ pdate su st nt co pr dd tg now db, pyUUID su = none →
       update_task pdate su st nt co pr dd tg now db = (.error msgInvalidUserId, db))
    -- stage 2: task id format, once the owner id is valid, regardless of
    -- the field arguments and of the store
  ∧ (∀ su st now db u, pyUUID su = some u → pyUUID st = none →
       complete_task su st now db = (.error msgInvalidTaskId, db))
  ∧ (∀ su st db u, pyUUID su = some u → pyUUID st = none →
       delete_task su st db = (.error msgInvalidTaskId, db))
  ∧ (∀ pdate su st nt co pr dd tg now db u, pyUUID su = some u → pyUUID st = none →
       update_task pdate su st nt co pr dd tg now db = (.error msgInvalidTaskId, db))
    -- stage 3: field-level constraints, before any lookup (independent of
    -- the store's contents)
  ∧ (∀ pdate su ti pr dd tg fresh now db u, pyUUID su = some u →
       pyStrip ti = "" →
       add_task pdate su ti pr dd tg fresh now db = (.error msgTitleEmpty, db))
  ∧ (∀ pdate su ti pr dd tg fresh now db u, pyUUID su = some u →
       pyStrip ti ≠ "" → pyLen (pyStrip ti) > 500 →
       add_task pdate su ti pr dd tg fresh now db = (.error msgTitleLong, db))
  ∧ (∀ pdate su ti pr dd tg fresh now db u, pyUUID su = some u →
       pyStrip ti ≠ "" → pyLen (pyStrip ti) ≤ 500 →
       pr ≠ "" → pr ∉ validPriorities →
       add_task pdate su ti pr dd tg fresh now db = (.error msgBadPriority, db))
  ∧ (∀ pdate su ti pr d tg fresh now db u, pyUUID su = some u →
       pyStrip ti ≠ "" → pyLen (pyStrip ti) ≤ 500 →
       pr ∈ validPriorities → d ≠ "" → pdate (pyReplaceZ d) = none →
       add_task pdate su ti pr (some d) tg fresh now db
         = (.error msgBadDueDateAdd, db))
  ∧ (∀ pdate su st s co pr dd tg now db u t, pyUUID su = some u →
       pyUUID st = some t → pyStrip s = "" →
       update_task pdate su st (some s) co pr dd tg now db
         = (.error msgNewTitleEmpty, db))
  ∧ (∀ pdate su st co p dd tg now db u t, pyUUID su = some u →
       pyUUID st = some t → p ∉ validPriorities →
       update_task pdate su st none co (some p) dd tg now db
         = (.error msgBadPriority, db))
  ∧ (∀ pdate su st co d tg now db u t, pyUUID su = some u →
       pyUUID st = some t → pdate (pyReplaceZ d) = none →
       update_task pdate su st none co none (some d) tg now db
         = (.error msgBadDueDateUpd, db))
  ∧ (∀ pdate su st co s now db u t, pyUUID su = some u →
       pyUUID st = some t → pyLen (pyStrip s) > 500 →
       update_task pdate su st none co none none (some s) now db
         = (.error msgTagsLong, db))
    -- stage 4: the existence/ownership lookup happens only after all field
    -- checks pass, and a failed lookup leaves the store unchanged
  ∧ (∀ pdate su st now db u t, pyUUID su = some u → pyUUID st = some t →
       db.tasks.find? (fun x => x.id == t) = none →
       update_task pdate su st none none none none none now db
         = (.error msgTaskMissing, db))
  ∧ (∀ pdate su st s co pr dd tg now db u t, pyUUID su = some u →
       pyUUID st = some t → pyStrip s ≠ "" → pyLen (pyStrip s) > 500 →
       update_task pdate su st (some s) co pr dd tg now db
         = (.error msgNewTitleLong, db))
    -- lookup stage of complete_task and delete_task: a missing task and a
    -- task of another owner both fail with no persistence, store unchanged
  ∧ (∀ su st now db u t, pyUUID su = some u → pyUUID st = some t →
       db.tasks.find? (fun x => x.id == t) = none →
       complete_task su st now db = (.error msgTaskMissing, db))
  ∧ (∀ su st db u t, pyUUID su = some u → pyUUID st = some t →
       db.tasks.find? (fun x => x.id == t) = none →
       delete_task su st db = (.error msgTaskMissing, db))
  ∧ (∀ su st now db u t task, pyUUID su = some u → pyUUID st = some t →
       db.tasks.find? (fun x => x.id == t) = some task → task.user_id ≠ u →
       complete_task su st now db = (.error msgTaskWrongUser, db))
  ∧ (∀ su st db u t task, pyUUID su = some u → pyUUID st = some t →
       db.tasks.find? (fun x => x.id == t) = some task → task.user_id ≠ u →
       delete_task su st db = (.error msgTaskWrongUser, db))
    -- lookup stage of update_task for an arbitrary patch: once every field
    -- stage has passed, a wrong-owner or missing task fails with the store
    -- unchanged
  ∧ (∀ pdate su st nt co pr dd tg now db u t task nt2 pd tg2,
       pyUUID su = some u → pyUUID st = some t →
       upd_title_step nt = .ok nt2 → upd_priority_step pr = .ok () →
       upd_due_step pdate dd = .ok pd → upd_tags_step tg = .ok tg2 →
       db.tasks.find? (fun x => x.id == t) = some task → task.user_id ≠ u →
       update_task pdate su st nt co pr dd tg now db
         = (.error msgTaskWrongUser, db))
  ∧ (∀ pdate su st nt co pr dd tg now db u t nt2 pd tg2,
       pyUUID su = some u → pyUUID st = some t →
       upd_title_step nt = .ok nt2 → upd_priority_step pr = .ok () →
       upd_due_step pdate dd = .ok pd → upd_tags_step tg = .ok tg2 →
       db.tasks.find? (fun x => x.id == t) = none →
       update_task pdate su st nt co pr dd tg now db
         = (.error msgTaskMissing, db)) := by
  refine ⟨?_, ?_, ?_, ?_, ?_, ?_, ?_, ?_, ?_, ?_, ?_, ?_, ?_, ?_, ?_, ?_, ?_,
    ?_, ?_, ?_, ?_, ?_, ?_, ?_⟩
  · intro pdate su ti pr dd tg fresh now db h
    simp [add_task, h]
  · intro su fc db h
    simp [list_tasks, h]
  · intro su st now db h
    simp [complete_task, h]
  · intro su st db h
    simp [delete_task, h]
  · intro pdate su st nt co pr dd tg now db h
    simp [update_task, h]
  · intro su st now db u h1 h2
    simp [complete_task, h1, h2]
  · intro su st db u h1 h2
    simp [delete_task, h1, h2]
  · intro pdate su st nt co pr dd tg now db u h1 h2
    simp [update_task, h1, h2]
  · intro pdate su ti pr dd tg fresh now db u h1 h2
    simp [add_task, h1, h2]
  · intro pdate su ti pr dd tg fresh now db u h1 h2 h3
    simp [add_task, h1, h2, h3]
  · intro pdate su ti pr dd tg fresh now db u h1 h2 h3 h4 h5
    simp [add_task, h1, h2, h3, h4, h5, Nat.not_lt.mpr h3]
  · intro pdate su ti pr d tg fresh now db u h1 h2 h3 h4 h5 h6
    simp [add_task, parse_due_add, h1, h2, h3, h4, h5, h6, Nat.not_lt.mpr h3]
  · intro pdate su st s co pr dd tg now db u t h1 h2 h3
    simp [update_task, upd_title_step, h1, h2, h3]
  · intro pdate su st co p dd tg now db u t h1 h2 h3
    simp [update_task, upd_title_step, upd_priority_step, h1, h2, h3]
  · intro pdate su st co d tg now db u t h1 h2 h3
    simp [update_task, upd_title_step, upd_priority_step, upd_due_step,
      h1, h2, h3]
  · intro pdate su st co s now db u t h1 h2 h3
    simp [update_task, upd_title_step, upd_priority_step, upd_due_step,
      upd_tags_step, h1, h2, h3]
  · intro pdate su st now db u t h1 h2 h3
    simp [update_task, upd_title_step, upd_priority_step, upd_due_step,
      upd_tags_step, h1, h2, h3]
  · intro pdate su st s co pr dd tg now db u t h1 h2 h3 h4
    simp [update_task, upd_title_step, h1, h2, h3, h4]
  · intro su st now db u t h1 h2 h3
    simp [complete_task, h1, h2, h3]
  · intro su st db u t h1 h2 h3
    simp [delete_task, h1, h2, h3]
  · intro su st now db u t task h1 h2 h3 h4
    simp [complete_task, h1, h2, h3, h4]
  · intro su st db u t task h1 h2 h3 h4
    simp [delete_task, h1, h2, h3, h4]
  · intro pdate su st nt co pr dd tg now db u t task nt2 pd tg2 h1 h2 h3 h4
      h5 h6 h7 h8
    simp [update_task, h1, h2, h3, h4, h5, h6, h7, h8]
  · intro pdate su st nt co pr dd tg now db u t nt2 pd tg2 h1 h2 h3 h4 h5 h6 h7
    simp [update_task, h1, h2, h3, h4, h5, h6, h7]

set_option maxRecDepth 4000 in
/-- C5 witness: the validation stages observed on concrete inputs — one
entry per stage kind: invalid owner, invalid task id, empty title, bad
priority, over-length new title, and the lookup stage of update, complete
and delete (missing task and wrong-owner task), plus a field-stage-passed
lookup failure. -/
theorem tool_validation_order_witness :
    add_task (fun _ => none) "bad-uuid" "Buy milk" "medium" none none 7 5 cexDB
      = (.error msgInvalidUserId, cexDB)
    ∧ complete_task cexUserA "bad-uuid" 5 cexDB = (.error msgInvalidTaskId, cexDB)
    ∧ add_task (fun _ => none) cexUserA "  " "medium" none none 7 5 cexDB
      = (.error msgTitleEmpty, cexDB)
    ∧ update_task (fun _ => none) cexUserA cexTask1 none none (some "urgent")
        none none 5 cexDB = (.error msgBadPriority, cexDB)
    ∧ update_task (fun _ => none) cexUserA cexTask2 none none none none none 5
        cexDB = (.error msgTaskMissing, cexDB)
    ∧ update_task (fun _ => none) cexUserA cexTask1 (some cexLongTitle) none
        none none none 5 cexDB = (.error msgNewTitleLong, cexDB)
    ∧ complete_task cexUserA cexTask2 5 cexDB = (.error msgTaskMissing, cexDB)
    ∧ delete_task cexUserA cexTask2 cexDB = (.error msgTaskMissing, cexDB)
    ∧ complete_task cexUserB cexTask1 5 cexDB = (.error msgTaskWrongUser, cexDB)
    ∧ delete_task cexUserB cexTask1 cexDB = (.error msgTaskWrongUser, cexDB)
    ∧ update_task (fun _ => none) cexUserB cexTask1 none none none none none 6
        cexDB = (.error msgTaskWrongUser, cexDB)
    ∧ update_task (fun _ => some 3) cexUserA cexTask2 none none none
        (some "2025-01-25") none 5 cexDB = (.error msgTaskMissing, cexDB) :=
  ⟨tool_validation_order.1 (fun _ => none) "bad-uuid" "Buy milk" "medium"
      none none 7 5 cexDB (by decide),
   tool_validation_order.2.2.2.2.2.1 cexUserA "bad-uuid" 5 cexDB 10
      (by decide) (by decide),
   tool_validation_order.2.2.2.2.2.2.2.2.1 (fun _ => none) cexUserA "  "
      "medium" none none 7 5 cexDB 10 (by decide) (by decide),
   tool_validation_order.2.2.2.2.2.2.2.2.2.2.2.2.2.1 (fun _ => none)
      cexUserA cexTask1 none "urgent" none none 5 cexDB 10 1
      (by decide) (by decide) (by decide),
   tool_validation_order.2.2.2.2.2.2.2.2.2.2.2.2.2.2.2.2.1 (fun _ => none)
      cexUserA cexTask2 5 cexDB 10 2 (by decide) (by decide) (by decide),
   tool_validation_order.2.2.2.2.2.2.2.2.2.2.2.2.2.2.2.2.2.1 (fun _ => none)
      cexUserA cexTask1 cexLongTitle none none none none 5 cexDB 10 1
      (by decide) (by decide) (by decide) (by decide),
   tool_validation_order.2.2.2.2.2.2.2.2.2.2.2.2.2.2.2.2.2.2.1
      cexUserA cexTask2 5 cexDB 10 2 (by decide) (by decide) (by decide),
   tool_validation_order.2.2.2.2.2.2.2.2.2.2.2.2.2.2.2.2.2.2.2.1
      cexUserA cexTask2 cexDB 10 2 (by decide) (by decide) (by decide),
   tool_validation_order.2.2.2.2.2.2.2.2.2.2.2.2.2.2.2.2.2.2.2.2.1
      cexUserB cexTask1 5 cexDB 11 1
      ⟨1, 10, "User 1 task", false, "medium", none, none, 0, 0⟩
      (by decide) (by decide) (by decide) (by decide),
   tool_validation_order.2.2.2.2.2.2.2.2.2.2.2.2.2.2.2.2.2.2.2.2.2.1
      cexUserB cexTask1 cexDB 11 1
      ⟨1, 10, "User 1 task", false, "medium", none, none, 0, 0⟩
      (by decide) (by decide) (by decide) (by decide),
   tool_validation_order.2.2.2.2.2.2.2.2.2.2.2.2.2.2.2.2.2.2.2.2.2.2.1
      (fun _ => none) cexUserB cexTask1 none none none none none 6 cexDB 11 1
      ⟨1, 10, "User 1 task", false, "medium", none, none, 0, 0⟩
      none none none
      (by decide) (by decide) rfl rfl rfl rfl (by decide) (by decide),
   tool_validation_order.2.2.2.2.2.2.2.2.2.2.2.2.2.2.2.2.2.2.2.2.2.2.2
      (fun _ => some 3) cexUserA cexTask2 none none none (some "2025-01-25")
      none 5 cexDB 10 2 none (some 3) none
      (by decide) (by decide) rfl rfl rfl rfl (by decide)⟩

/-- C6: completing a task twice succeeds both times, with `completed=true`
reported after each call; re-asserting completion on an already-completed
task is not an error. -/
theorem complete_task_idempotent (su st : String) (u t now1 now2 : Nat)
    (db : DB) (task : Task)
    (h1 : pyUUID su = some u) (h2 : pyUUID st = some t)
    (h3 : db.tasks.find? (fun x => x.id == t) = some task)
    (h4 : task.user_id = u) :
    ∃ r1 db1 r2 db2,
      complete_task su st now1 db = (.ok r1, db1)
      ∧ r1.completed = true
      ∧ complete_task su st now2 db1 = (.ok r2, db2)
      ∧ r2.completed = true := by
  have hid0 := List.find?_some h3
  have hid : (task.id == t) = true := by simpa using hid0
  have hc1 : complete_task su st now1 db
      = (.ok { task_id := task.id, status := "completed", title := task.title
               completed := true, updated_at := now1 },
         { db with tasks := db.tasks.map (fun x => if x.id == t then
             { task with completed := true, updated_at := now1 } else x) }) := by
    simp [complete_task, h1, h2, h3, h4]
  have hf2 : (db.tasks.map (fun x => if x.id == t then
        { task with completed := true, updated_at := now1 } else x)).find?
        (fun x => x.id == t)
      = some { task with completed := true, updated_at := now1 } :=
    find?_map_replace h3 (by simpa using hid)
  have hc2 : complete_task su st now2
      ({ db with tasks := db.tasks.map (fun x => if x.id == t then
          { task with completed := true, updated_at := now1 } else x) })
      = (.ok { task_id := task.id, status := "completed", title := task.title
               completed := true, updated_at := now2 },
         { db with tasks :=
            ((db.tasks.map (fun x => if x.id == t then
                { task with completed := true, updated_at := now1 } else x)).map
              (fun x => if x.id == t then
                { task with completed := true, updated_at := now2 } else x)) }) := by
    simp only [complete_task, h1, h2]
    rw [hf2]
    simp [h4]
  exact ⟨_, _, _, _, hc1, rfl, hc2, rfl⟩

/-- C6 witness: completing the concrete task twice. -/
theorem complete_task_idempotent_witness :
    ∃ r1 db1 r2 db2,
      complete_task cexUserA cexTask1 5 cexDB = (.ok r1, db1)
      ∧ r1.completed = true
      ∧ complete_task cexUserA cexTask1 6 db1 = (.ok r2, db2)
      ∧ r2.completed = true :=
  complete_task_idempotent cexUserA cexTask1 10 1 5 6 cexDB
    ⟨1, 10, "User 1 task", false, "medium", none, none, 0, 0⟩
    (by decide) (by decide) (by decide) (by decide)

/-- C7: on every successful `update_task` call, exactly the present patch
fields {title, completed, priority, due_date, tags} are changed (to their
validated/normalised values), every absent field keeps its prior value, the
task's identity fields are untouched, and `updated_at` is set to the
current reading unconditionally — including for a patch with no optional
fields at all (instantiate every option with `none`). -/
theorem update_task_frame (pdate : String → Option Nat) (su st : String)
    (u t now : Nat) (db : DB) (task : Task)
    (nt : Option String) (co : Option Bool) (pr : Option String)
    (dd tg : Option String)
    (h1 : pyUUID su = some u) (h2 : pyUUID st = some t)
    (h3 : db.tasks.find? (fun x => x.id == t) = some task)
    (h4 : task.user_id = u)
    (hnt : ∀ s, nt = some s → pyStrip s ≠ "" ∧ pyLen (pyStrip s) ≤ 500)
    (hpr : ∀ p, pr = some p → p ∈ validPriorities)
    (hdd : ∀ d, dd = some d → (pdate (pyReplaceZ d)).isSome)
    (htg : ∀ s, tg = some s → pyLen (pyStrip s) ≤ 500) :
    ∃ r task2,
      update_task pdate su st nt co pr dd tg now db
        = (.ok r,
           { db with tasks := db.tasks.map (fun x => if x.id == t then task2 else x) })
      ∧ (nt = none → task2.title = task.title)
      ∧ (∀ s, nt = some s → task2.title = pyStrip s)
      ∧ (co = none → task2.completed = task.completed)
      ∧ (∀ b, co = some b → task2.completed = b)
      ∧ (pr = none → task2.priority = task.priority)
      ∧ (∀ p, pr = some p → task2.priority = p)
      ∧ (dd = none → task2.due_date = task.due_date)
      ∧ (∀ d, dd = some d → task2.due_date = pdate (pyReplaceZ d))
      ∧ (tg = none → task2.tags = task.tags)
      ∧ (∀ s, tg = some s → task2.tags = some (pyStrip s))
      ∧ task2.updated_at = now
      ∧ task2.id = task.id ∧ task2.user_id = task.user_id
      ∧ task2.created_at = task.created_at
      ∧ r.updated_at = now := by
  have hT : upd_title_step nt = .ok (nt.map pyStrip) := by
    cases nt with
    | none => rfl
    | some s =>
      obtain ⟨hs1, hs2⟩ := hnt s rfl
      simp [upd_title_step, hs1, Nat.not_lt.mpr hs2]
  have hP : upd_priority_step pr = .ok () := by
    cases pr with
    | none => rfl
    | some p => simp [upd_priority_step, hpr p rfl]
  have hD : upd_due_step pdate dd
      = .ok (dd.bind (fun d => pdate (pyReplaceZ d))) := by
    cases dd with
    | none => rfl
    | some d =>
      obtain ⟨v, hv⟩ := Option.isSome_iff_exists.mp (hdd d rfl)
      simp [upd_due_step, hv]
  have hG : upd_tags_step tg = .ok (tg.map pyStrip) := by
    cases tg with
    | none => rfl
    | some s => simp [upd_tags_step, Nat.not_lt.mpr (htg s rfl)]
  refine ⟨{ task_id := task.id, status := "updated"
            title := (nt.map pyStrip).getD task.title
            completed := co.getD task.completed
            priority := pr.getD task.priority
            due_date := match dd with
                        | some _ => dd.bind (fun d => pdate (pyReplaceZ d))
                        | none => task.due_date
            tags := match tg.map pyStrip with
                    | some s => some s
                    | none => task.tags
            updated_at := now },
         { task with
            title := (nt.map pyStrip).getD task.title
            completed := co.getD task.completed
            priority := pr.getD task.priority
            due_date := match dd with
                        | some _ => dd.bind (fun d => pdate (pyReplaceZ d))
                        | none => task.due_date
            tags := match tg.map pyStrip with
                    | some s => some s
                    | none => task.tags
            updated_at := now },
         ?_, ?_, ?_, ?_, ?_, ?_, ?_, ?_, ?_, ?_, ?_, rfl, rfl, rfl, rfl, rfl⟩
  · cases dd <;> cases tg <;>
      simp only [update_task, h1, h2, hT, hP, hD, hG, h3] <;> simp [h4]
  · intro h
    subst h
    rfl
  · intro s h
    subst h
    rfl
  · intro h
    subst h
    rfl
  · intro b h
    subst h
    rfl
  · intro h
    subst h
    rfl
  · intro p h
    subst h
    rfl
  · intro h
    subst h
    rfl
  · intro d h
    subst h
    rfl
  · intro h
    subst h
    rfl
  · intro s h
    subst h
    rfl

/-- C7 witness: an empty patch on a concrete task still succeeds, keeps all
fields, and bumps `updated_at`. -/
theorem update_task_frame_witness :
    ∃ r task2,
      update_task (fun _ => none) cexUserA cexTask1 none none none none none 5 cexDB
        = (.ok r,
           { cexDB with
              tasks := cexDB.tasks.map (fun x => if x.id == 1 then task2 else x) })
      ∧ (none = (none : Option String) → task2.title
            = (⟨1, 10, "User 1 task", false, "medium", none, none, 0, 0⟩ : Task).title)
      ∧ (∀ s, (none : Option String) = some s → task2.title = pyStrip s)
      ∧ ((none : Option Bool) = none → task2.completed = false)
      ∧ (∀ b, (none : Option Bool) = some b → task2.completed = b)
      ∧ ((none : Option String) = none → task2.priority = "medium")
      ∧ (∀ p, (none : Option String) = some p → task2.priority = p)
      ∧ ((none : Option String) = none → task2.due_date = none)
      ∧ (∀ d, (none : Option String) = some d
            → task2.due_date = (fun _ => (none : Option Nat)) (pyReplaceZ d))
      ∧ ((none : Option String) = none → task2.tags = none)
      ∧ (∀ s, (none : Option String) = some s → task2.tags = some (pyStrip s))
      ∧ task2.updated_at = 5
      ∧ task2.id = 1 ∧ task2.user_id = 10
      ∧ task2.created_at = 0
      ∧ r.updated_at = 5 :=
  update_task_frame (fun _ => none) cexUserA cexTask1 10 1 5 cexDB
    ⟨1, 10, "User 1 task", false, "medium", none, none, 0, 0⟩
    none none none none none
    (by decide) (by decide) (by decide) (by decide)
    (by intro s h; cases h) (by intro p h; cases h)
    (by intro d h; cases h) (by intro s h; cases h)

/-- A valid-role, non-blank save appends exactly one message. -/
theorem save_message_ok (cid : Nat) (role content : String) (fresh now : Nat)
    (db : DB) (hrole : role = "user" ∨ role = "assistant")
    (hc : pyStrip content ≠ "") :
    save_message cid role content fresh now db
      = (.ok ⟨fresh, cid, role, pyStrip content, now⟩,
         { db with msgs := db.msgs ++ [⟨fresh, cid, role, pyStrip content, now⟩] }) := by
  rcases hrole with h | h <;> subst h <;> simp [save_message, hc]

/-- The reasoning/response step never emits an append event. -/
theorem agent_reply_no_append (pdate : String → Option Nat)
    (apiResult : Except String ModelMsg) (auth : String) (freshT nowT : Nat)
    (db : DB) :
    ∀ r c, Ev.append r c ∉ (agent_reply pdate apiResult auth freshT nowT db).2.2 := by
  intro r c
  cases apiResult with
  | error e => simp [agent_reply]
  | ok m =>
    rcases m with ⟨ct, tcs⟩
    cases tcs with
    | nil => simp [agent_reply, process_openai_response]
    | cons tc rest =>
      rcases hx : execute_tool pdate tc.name (inject_owner auth tc.args)
        freshT nowT db with ⟨rr, db1⟩
      cases rr <;> simp [agent_reply, process_openai_response, hx]

/-- C3 counterexample: the claim "for every chat turn that passes context
load, the orchestrator appends exactly two messages" is false: a
whitespace-only user message (which passes the endpoint's min-length check
and the context load) makes `save_message` raise, so the turn aborts with
zero messages appended. -/
theorem persist_whitespace_cex :
    (process_message (fun _ => none) (.ok ⟨some "Hello!", []⟩) " " cexUserA 10
        (some 1) 100 101 102 5 6 7 cexDB).1 = .error msgEmptyContent
    ∧ (process_message (fun _ => none) (.ok ⟨some "Hello!", []⟩) " " cexUserA 10
        (some 1) 100 101 102 5 6 7 cexDB).2.1 = cexDB := by decide

/-- C3 amended: for every chat turn that passes context load and in which
both the user message and the rendered assistant reply are non-blank after
trimming, the orchestrator appends exactly two messages — the user message
first, then the rendered assistant message — and both appends happen after
every reasoning/tool-execution event of the turn.  (A whitespace-only user
message instead aborts the turn with nothing appended, and a
whitespace-only relayed model reply aborts it with only the user message
appended.) -/
theorem persist_two_messages_amended (pdate : String → Option Nat)
    (apiResult : Except String ModelMsg) (user_message auth : String)
    (authU cid freshT fm1 fm2 nowT now1 now2 : Nat) (db : DB)
    (hist : List MsgDict)
    (hload : get_conversation_history cid authU db = some hist)
    (huser : pyStrip user_message ≠ "")
    (hassist : pyStrip (agent_reply pdate apiResult auth freshT nowT db).1 ≠ "") :
    ∃ dbt evs,
      process_message pdate apiResult user_message auth authU (some cid)
          freshT fm1 fm2 nowT now1 now2 db
        = (.ok (agent_reply pdate apiResult auth freshT nowT db).1, dbt,
           .loadHistory :: evs
             ++ [.append "user" user_message,
                 .append "assistant" (agent_reply pdate apiResult auth freshT nowT db).1])
      ∧ dbt.msgs = db.msgs
          ++ [⟨fm1, cid, "user", pyStrip user_message, now1⟩,
              ⟨fm2, cid, "assistant",
               pyStrip (agent_reply pdate apiResult auth freshT nowT db).1, now2⟩]
      ∧ (∀ r c, Ev.append r c ∉ evs) := by
  have hnoapp := agent_reply_no_append pdate apiResult auth freshT nowT db
  have hstore := (agent_reply_store pdate apiResult auth freshT nowT db).1
  rcases hr : agent_reply pdate apiResult auth freshT nowT db with ⟨assistant, db1, evs⟩
  have hassist2 : pyStrip assistant ≠ "" := by rw [hr] at hassist; exact hassist
  have hstore2 : db1.msgs = db.msgs := by rw [hr] at hstore; exact hstore
  have hnoapp2 : ∀ r c, Ev.append r c ∉ evs := by rw [hr] at hnoapp; exact hnoapp
  have hm1 := save_message_ok cid "user" user_message fm1 now1 db1
    (Or.inl rfl) huser
  have hm2 := save_message_ok cid "assistant" assistant fm2 now2
    { db1 with msgs := db1.msgs ++ [⟨fm1, cid, "user", pyStrip user_message, now1⟩] }
    (Or.inr rfl) hassist2
  refine ⟨{ db1 with msgs :=
      (db1.msgs ++ [⟨fm1, cid, "user", pyStrip user_message, now1⟩])
        ++ [⟨fm2, cid, "assistant", pyStrip assistant, now2⟩] }, evs, ?_, ?_, hnoapp2⟩
  · simp only [process_message, hload, hr, hm1, hm2]
  · simp [hstore2]

/-- C3 amended witness: a concrete plain-text turn appends exactly the two
messages, after the reasoning event. -/
theorem persist_two_messages_amended_witness :
    ∃ dbt evs,
      process_message (fun _ => none) (.ok ⟨some "Hello!", []⟩) "hi" cexUserA 10
          (some 1) 100 101 102 5 6 7 cexDB
        = (.ok (agent_reply (fun _ => none) (.ok ⟨some "Hello!", []⟩) cexUserA
              100 5 cexDB).1, dbt,
           .loadHistory :: evs
             ++ [.append "user" "hi",
                 .append "assistant"
                   (agent_reply (fun _ => none) (.ok ⟨some "Hello!", []⟩) cexUserA
                     100 5 cexDB).1])
      ∧ dbt.msgs = cexDB.msgs
          ++ [⟨101, 1, "user", pyStrip "hi", 6⟩,
              ⟨102, 1, "assistant",
               pyStrip (agent_reply (fun _ => none) (.ok ⟨some "Hello!", []⟩)
                 cexUserA 100 5 cexDB).1, 7⟩]
      ∧ (∀ r c, Ev.append r c ∉ evs) :=
  persist_two_messages_amended (fun _ => none) (.ok ⟨some "Hello!", []⟩) "hi"
    cexUserA 10 1 100 101 102 5 6 7 cexDB [] (by decide) (by decide) (by decide)

/-- Inversion of a successful `save_message`. -/
theorem save_message_ok_inv {cid : Nat} {role content : String}
    {fresh now : Nat} {db : DB} {m : Message} {dbm : DB}
    (h : save_message cid role content fresh now db = (.ok m, dbm)) :
    m = ⟨fresh, cid, role, pyStrip content, now⟩
    ∧ dbm = { db with msgs := db.msgs ++ [m] } := by
  unfold save_message at h
  by_cases h1 : role ≠ "user" ∧ role ≠ "assistant"
  · rw [if_pos h1] at h
    simp at h
  · rw [if_neg h1] at h
    by_cases h2 : pyStrip content = ""
    · simp [h2] at h
    · rw [if_neg h2] at h
      rw [Prod.mk.injEq] at h
      obtain ⟨hm, hdb⟩ := h
      injection hm with hm
      subst hm
      subst hdb
      exact ⟨rfl, rfl⟩

/-- C8 counterexample: the claim that a subsequent history read returns the
message content verbatim as supplied at append time is false: a content
with surrounding whitespace is stored stripped. -/
theorem message_roundtrip_cex :
    (save_message 1 "user" " hi " 7 3 cexDB).1
        = .ok { id := 7, conversation_id := 1, role := "user"
                content := "hi", created_at := 3 }
    ∧ "hi" ≠ " hi "
    ∧ get_conversation_history 1 10 (save_message 1 "user" " hi " 7 3 cexDB).2
        = some [{ id := 7, role := "user", content := "hi", created_at := 3 }] := by
  decide

/-- C8 amended: for every message appended with a valid role and non-blank
content, a subsequent history read returns the message's role and
created_at verbatim, and its content stripped of surrounding whitespace
(`content.strip()`); in particular the content is returned verbatim
whenever it carries no surrounding whitespace. -/
theorem message_roundtrip_amended (db : DB) (cid uid : Nat)
    (role content : String) (fresh now : Nat) (conv : Conversation)
    (hrole : role = "user" ∨ role = "assistant")
    (hcontent : pyStrip content ≠ "")
    (hconv : db.convs.find? (fun c => c.id == cid && c.user_id == uid)
        = some conv) :
    ∃ db2 l,
      save_message cid role content fresh now db
        = (.ok ⟨fresh, cid, role, pyStrip content, now⟩, db2)
      ∧ get_conversation_history cid uid db2 = some l
      ∧ (⟨fresh, role, pyStrip content, now⟩ : MsgDict) ∈ l
      ∧ (pyStrip content = content →
          (⟨fresh, role, content, now⟩ : MsgDict) ∈ l) := by
  have hm := save_message_ok cid role content fresh now db hrole hcontent
  have hmem : (⟨fresh, cid, role, pyStrip content, now⟩ : Message) ∈
      ((db.msgs ++ [(⟨fresh, cid, role, pyStrip content, now⟩ : Message)]).filter
        (fun m : Message => m.conversation_id == cid)) := by
    rw [List.filter_append]
    refine List.mem_append_right _ ?_
    simp [List.mem_filter]
  have hmem2 : (⟨fresh, role, pyStrip content, now⟩ : MsgDict) ∈
      ((List.insertionSort byCreatedAt
        ((db.msgs ++ [(⟨fresh, cid, role, pyStrip content, now⟩ : Message)]).filter
          (fun m : Message => m.conversation_id == cid))).map msgToDict) := by
    have h5 : msgToDict (⟨fresh, cid, role, pyStrip content, now⟩ : Message) ∈
        ((List.insertionSort byCreatedAt
          ((db.msgs ++ [(⟨fresh, cid, role, pyStrip content, now⟩ : Message)]).filter
            (fun m : Message => m.conversation_id == cid))).map msgToDict) :=
      List.mem_map_of_mem msgToDict (by rw [List.mem_insertionSort]; exact hmem)
    simpa [msgToDict] using h5
  refine ⟨{ db with msgs := db.msgs
            ++ [(⟨fresh, cid, role, pyStrip content, now⟩ : Message)] },
          ((List.insertionSort byCreatedAt
            ((db.msgs ++ [(⟨fresh, cid, role, pyStrip content, now⟩ : Message)]).filter
              (fun m : Message => m.conversation_id == cid))).map msgToDict),
          hm, ?_, hmem2, ?_⟩
  · simp only [get_conversation_history]
    rw [show ({ db with msgs := db.msgs
        ++ [(⟨fresh, cid, role, pyStrip content, now⟩ : Message)] } : DB).convs
      = db.convs from rfl]
    rw [hconv]
  · intro h
    have hd : (⟨fresh, role, content, now⟩ : MsgDict)
        = ⟨fresh, role, pyStrip content, now⟩ := by rw [h]
    rw [hd]
    exact hmem2

/-- C8 amended witness: a concrete append and read. -/
theorem message_roundtrip_amended_witness :
    ∃ db2 l,
      save_message 1 "user" "hello" 7 3 cexDB
        = (.ok ⟨7, 1, "user", pyStrip "hello", 3⟩, db2)
      ∧ get_conversation_history 1 10 db2 = some l
      ∧ (⟨7, "user", pyStrip "hello", 3⟩ : MsgDict) ∈ l
      ∧ (pyStrip "hello" = "hello" →
          (⟨7, "user", "hello", 3⟩ : MsgDict) ∈ l) :=
  message_roundtrip_amended cexDB 1 10 "user" "hello" 7 3 ⟨1, 10, 0⟩
    (Or.inl rfl) (by decide) (by decide)

/-- C9: every history read returns messages with non-decreasing created_at;
when the stored (insertion-ordered) messages of the conversation already
have non-decreasing timestamps — which every append with a monotone clock
maintains, see the third conjunct — the returned sequence is exactly the
insertion sequence, so role and content match insertion order and ties are
broken by insertion order. -/
theorem history_ordering_invariant :
    (∀ db cid uid l, get_conversation_history cid uid db = some l →
       l.Pairwise (fun a b => a.created_at ≤ b.created_at))
  ∧ (∀ db cid uid conv,
       db.convs.find? (fun c => c.id == cid && c.user_id == uid) = some conv →
       (db.msgs.filter (fun m => m.conversation_id == cid)).Pairwise byCreatedAt →
       get_conversation_history cid uid db
         = some ((db.msgs.filter (fun m => m.conversation_id == cid)).map msgToDict))
  ∧ (∀ db cid role content fresh now m dbm,
       (∀ x ∈ db.msgs, x.created_at ≤ now) →
       db.msgs.Pairwise byCreatedAt →
       save_message cid role content fresh now db = (.ok m, dbm) →
       dbm.msgs.Pairwise byCreatedAt) := by
  refine ⟨?_, ?_, ?_⟩
  · intro db cid uid l h
    unfold get_conversation_history at h
    rcases hf : db.convs.find? (fun c => c.id == cid && c.user_id == uid)
      with _ | conv
    · rw [hf] at h
      cases h
    · rw [hf] at h
      injection h with h
      subst h
      exact List.Pairwise.map _ (fun a b hab => hab)
        (List.sorted_insertionSort byCreatedAt _)
  · intro db cid uid conv h1 h2
    unfold get_conversation_history
    rw [h1, List.Sorted.insertionSort_eq h2]
  · intro db cid role content fresh now m dbm h1 h2 h3
    obtain ⟨hm, hdb⟩ := save_message_ok_inv h3
    subst hdb
    rw [show ({ db with msgs := db.msgs ++ [m] } : DB).msgs
      = db.msgs ++ [m] from rfl]
    refine List.pairwise_append.mpr ⟨h2, List.pairwise_singleton _ _, ?_⟩
    intro a ha b hb
    have hbm : b = m := by simpa using hb
    subst hbm
    have : b.created_at = now := by rw [hm]
    rw [byCreatedAt, this]
    exact h1 a ha

/-- C9 witness: the three conjuncts at a concrete store and append. -/
theorem history_ordering_invariant_witness :
    ([⟨5, "user", "a", 2⟩, ⟨6, "assistant", "b", 3⟩] : List MsgDict).Pairwise
        (fun a b => a.created_at ≤ b.created_at)
    ∧ get_conversation_history 1 10 cexDBmsgs
        = some ((cexDBmsgs.msgs.filter (fun m => m.conversation_id == 1)).map msgToDict)
    ∧ (save_message 1 "user" "c" 7 4 cexDBmsgs).2.msgs.Pairwise byCreatedAt :=
  ⟨history_ordering_invariant.1 cexDBmsgs 1 10 _ (by decide),
   history_ordering_invariant.2.1 cexDBmsgs 1 10 ⟨1, 10, 0⟩ (by decide) (by decide),
   history_ordering_invariant.2.2 cexDBmsgs 1 "user" "c" 7 4
     ⟨7, 1, "user", "c", 4⟩ (save_message 1 "user" "c" 7 4 cexDBmsgs).2
     (by decide) (by decide) (by decide)⟩

/-- C10: `history` returns the same `None` both when the conversation does
not exist and when it exists under a different owner, and the chat turn
then aborts with a request-level 404 (never a 403) before any message is
persisted — the store is returned unchanged. -/
theorem history_notfound_unified :
    (∀ db cid uid, (∀ c ∈ db.convs, c.id ≠ cid) →
       get_conversation_history cid uid db = none)
  ∧ (∀ db cid uid, (∀ c ∈ db.convs, c.id = cid → c.user_id ≠ uid) →
       get_conversation_history cid uid db = none)
  ∧ (∀ (pdate : String → Option Nat) (apiResult : Except String ModelMsg)
       (message : String) (cid : Nat) (auth : String)
       (authU freshC freshT fm1 fm2 nowC nowT now1 now2 : Nat) (db : DB),
       1 ≤ pyLen message → pyLen message ≤ 10000 →
       get_conversation_history cid authU db = none →
       chat_endpoint pdate apiResult message (some cid) auth authU freshC
           freshT fm1 fm2 nowC nowT now1 now2 db
         = (.error (404, "Conversation not found or access denied"), db))
  ∧ (404 : Nat) ≠ 403 := by
  refine ⟨?_, ?_, ?_, by decide⟩
  · intro db cid uid h
    have hf : db.convs.find? (fun c => c.id == cid && c.user_id == uid) = none := by
      refine List.find?_eq_none.mpr ?_
      intro c hc
      simp [h c hc]
    simp [get_conversation_history, hf]
  · intro db cid uid h
    have hf : db.convs.find? (fun c => c.id == cid && c.user_id == uid) = none := by
      refine List.find?_eq_none.mpr ?_
      intro c hc
      simp only [Bool.and_eq_true, beq_iff_eq, not_and]
      intro hcid
      simpa using h c hc hcid
    simp [get_conversation_history, hf]
  · intro pdate apiResult message cid auth authU freshC freshT fm1 fm2 nowC
      nowT now1 now2 db h1 h2 h3
    simp only [chat_endpoint]
    rw [if_neg (by omega)]
    simp only [h3]

/-- C10 witness: absent conversation and wrong-owner conversation both give
`none`, and the endpoint aborts with 404 leaving the store unchanged. -/
theorem history_notfound_unified_witness :
    get_conversation_history 2 10 cexDB = none
    ∧ get_conversation_history 1 11 cexDB = none
    ∧ chat_endpoint (fun _ => none) (.ok ⟨some "Hello!", []⟩) "hi" (some 2)
        cexUserA 10 50 100 101 102 4 5 6 7 cexDB
      = (.error (404, "Conversation not found or access denied"), cexDB) :=
  ⟨history_notfound_unified.1 cexDB 2 10 (by decide),
   history_notfound_unified.2.1 cexDB 1 11 (by decide),
   history_notfound_unified.2.2.1 (fun _ => none) (.ok ⟨some "Hello!", []⟩)
     "hi" 2 cexUserA 10 50 100 101 102 4 5 6 7 cexDB
     (by decide) (by decide) (by decide)⟩

end TodoChat
